import Mathlib

/-
  Verification development for the ClientManager repository.

  Server side (src/server/database.py, src/server/main.py): machines,
  packages, assignments and jobs live in a SQLite store; we embed the
  store as lists of records plus AUTOINCREMENT counters, and each
  Database method as a pure function on the store.

  Client side (src/client/service/db.py, installer.py, main.py): the
  agent ledger is a list of rows; subprocess execution, artifact
  download and hashing are modelled by an environment oracle.
-/

namespace ClientManager

/-- Python `str.lower()` (character-wise, as used on hex digests). -/
def lowerStr (s : String) : String :=
  ⟨s.data.map Char.toLower⟩

/-- Python `str.strip()`: drop whitespace from both ends. -/
def trimStr (s : String) : String :=
  ⟨((s.data.dropWhile Char.isWhitespace).reverse.dropWhile Char.isWhitespace).reverse⟩

/-- Replace every occurrence of the (non-empty) pattern in the list,
fuelled by the list length so the recursion is structural. -/
def replaceAux (pat sub : List Char) : Nat → List Char → List Char
  | 0, l => l
  | _ + 1, [] => []
  | fuel + 1, c :: rest =>
    if pat ≠ [] ∧ (c :: rest).take pat.length = pat then
      sub ++ replaceAux pat sub fuel ((c :: rest).drop pat.length)
    else c :: replaceAux pat sub fuel rest

/-- Replace every occurrence of `pat` in `s` with `sub`. -/
def replaceStr (s pat sub : String) : String :=
  ⟨replaceAux pat.data sub.data s.data.length s.data⟩

/-- One row of the server `computers` table (src/server/database.py). -/
structure Computer where
  id : Nat
  hostname : String
  os : Option String
  arch : Option String
  tags : List String
  last_check_in : Option String
  client_version : Option String
  token : Option String
  token_revoked : Bool
deriving Repr, DecidableEq

/-- One row of the server `packages` table. -/
structure Package where
  id : Nat
  name : String
  version : String
  platform : String
  download_url : String
  sha256 : String
  install_cmd : String
  uninstall_cmd : String
  silent_args : String
  precheck_cmd : String
  postcheck_cmd : String
  expected_exit_codes : List Int
deriving Repr, DecidableEq

/-- One row of the server `assignments` table. -/
structure Assignment where
  id : Nat
  computer_id : Nat
  package_id : Nat
  desired_state : String
  created_at : String
  updated_at : String
deriving Repr, DecidableEq

/-- One row of the server `jobs` table.  `status` is a free-form TEXT
column ("Pending", "InProgress", "Succeeded", "Failed", or whatever a
client submits in a completed event). -/
structure Job where
  id : Nat
  computer_id : Nat
  package_id : Nat
  action : String
  status : String
  started_at : Option String
  finished_at : Option String
  rc : Option Int
  stdout_tail : Option String
  stderr_tail : Option String
  attempts : Nat
deriving Repr, DecidableEq

/-- The server SQLite store: the four tables plus the AUTOINCREMENT
counters for the tables whose fresh ids the code uses. -/
structure ServerDB where
  computers : List Computer
  packages : List Package
  assignments : List Assignment
  jobs : List Job
  nextComputerId : Nat
  nextAssignmentId : Nat
  nextJobId : Nat
deriving Repr, DecidableEq

/-- A freshly created store (empty tables, counters at 1). -/
def emptyDB : ServerDB := ⟨[], [], [], [], 1, 1, 1⟩

/-- `Database.get_computer_by_hostname`. -/
def get_computer_by_hostname (db : ServerDB) (h : String) : Option Computer :=
  db.computers.find? (fun c => c.hostname == h)

/-- `Database.get_computer`. -/
def get_computer (db : ServerDB) (cid : Nat) : Option Computer :=
  db.computers.find? (fun c => c.id == cid)

/-- `Database.create_computer`: insert a row with NULL last_check_in,
client_version and token; returns the new id. -/
def create_computer (db : ServerDB) (hostname os_name arch : String)
    (tags : List String) : ServerDB × Nat :=
  let c : Computer :=
    ⟨db.nextComputerId, hostname, some os_name, some arch, tags, none, none, none, false⟩
  ({ db with computers := db.computers ++ [c],
             nextComputerId := db.nextComputerId + 1 },
   db.nextComputerId)

/-- `Database.set_token_and_meta`: assign a new bearer token and update
metadata; `COALESCE(?, client_version)` keeps the old client_version when
the new one is NULL (the os/arch arguments are always strings). -/
def set_token_and_meta (db : ServerDB) (cid : Nat) (token os_name arch : String)
    (client_version : Option String) : ServerDB :=
  { db with computers := db.computers.map (fun c =>
      if c.id == cid then
        { c with token := some token, os := some os_name, arch := some arch,
                 client_version :=
                   match client_version with
                   | some v => some v
                   | none => c.client_version }
      else c) }

/-- `Database.update_last_check_in`. -/
def update_last_check_in (db : ServerDB) (cid : Nat) (now : String) : ServerDB :=
  { db with computers := db.computers.map (fun c =>
      if c.id == cid then { c with last_check_in := some now } else c) }

/-- `Database.schedule_job`: unconditionally insert a new 'Pending' job
with 0 attempts and return its id. -/
def schedule_job (db : ServerDB) (computer_id package_id : Nat) (action : String) :
    ServerDB × Nat :=
  let j : Job :=
    ⟨db.nextJobId, computer_id, package_id, action, "Pending",
     none, none, none, none, none, 0⟩
  ({ db with jobs := db.jobs ++ [j], nextJobId := db.nextJobId + 1 },
   db.nextJobId)

/-- `Database.set_assignment`: upsert the assignment row for the
(computer, package) pair; schedule a job when the row is new or its
desired state changed and the new state is install/uninstall. -/
def set_assignment (db : ServerDB) (computer_id package_id : Nat)
    (desired_state now : String) : ServerDB × Nat :=
  match db.assignments.find?
      (fun a => a.computer_id == computer_id && a.package_id == package_id) with
  | some row =>
    if row.desired_state = desired_state then (db, row.id)
    else
      let db1 := { db with assignments := db.assignments.map (fun a =>
        if a.id == row.id then
          { a with desired_state := desired_state, updated_at := now }
        else a) }
      let db2 :=
        if desired_state = "install" ∨ desired_state = "uninstall" then
          (schedule_job db1 computer_id package_id desired_state).1
        else db1
      (db2, row.id)
  | none =>
    let a : Assignment :=
      ⟨db.nextAssignmentId, computer_id, package_id, desired_state, now, now⟩
    let db1 := { db with assignments := db.assignments ++ [a],
                         nextAssignmentId := db.nextAssignmentId + 1 }
    let db2 :=
      if desired_state = "install" ∨ desired_state = "uninstall" then
        (schedule_job db1 computer_id package_id desired_state).1
      else db1
    (db2, a.id)

/-- `Database.get_job`. -/
def get_job (db : ServerDB) (job_id : Nat) : Option Job :=
  db.jobs.find? (fun j => j.id == job_id)

/-- `Database.update_job_status`: phase 'start' marks the job InProgress
and bumps attempts; phase 'completed' finalises with the given status
(a falsy status, None or "", defaults to "Succeeded"); any other phase
touches nothing. -/
def update_job_status (db : ServerDB) (job_id : Nat) (phase : String)
    (status : Option String) (rc : Option Int)
    (stdout_tail stderr_tail : Option String) (now : String) : ServerDB :=
  if phase = "start" then
    { db with jobs := db.jobs.map (fun j =>
        if j.id == job_id then
          { j with status := "InProgress", started_at := some now,
                   attempts := j.attempts + 1 }
        else j) }
  else if phase = "completed" then
    let final_status :=
      match status with
      | some s => if s = "" then "Succeeded" else s
      | none => "Succeeded"
    { db with jobs := db.jobs.map (fun j =>
        if j.id == job_id then
          { j with status := final_status, finished_at := some now, rc := rc,
                   stdout_tail := stdout_tail, stderr_tail := stderr_tail }
        else j) }
  else db

/-- One entry of the plan returned by `Database.get_plan_for_computer`:
the non-terminal job id (NULL from the LEFT JOIN when none exists), the
assignment's desired state as the action, and the package details. -/
structure PlanEntry where
  job_id : Option Nat
  action : String
  package : Package
deriving Repr, DecidableEq

/-- The package dictionary built for a plan row: the id comes from the
assignment's package_id, the remaining fields from the joined package. -/
def planPackage (a : Assignment) (p : Package) : Package :=
  { id := a.package_id, name := p.name, version := p.version,
    platform := p.platform, download_url := p.download_url,
    sha256 := p.sha256, install_cmd := p.install_cmd,
    uninstall_cmd := p.uninstall_cmd, silent_args := p.silent_args,
    precheck_cmd := p.precheck_cmd, postcheck_cmd := p.postcheck_cmd,
    expected_exit_codes := p.expected_exit_codes }

/-- The jobs matched by the LEFT JOIN in `get_plan_for_computer`:
same computer, same package, status 'Pending' or 'InProgress'. -/
def nonTerminalJobsFor (db : ServerDB) (cid pid : Nat) : List Job :=
  db.jobs.filter (fun j =>
    j.computer_id == cid && j.package_id == pid &&
    (j.status == "Pending" || j.status == "InProgress"))

/-- The plan rows one assignment contributes: inner join against
packages, LEFT JOIN against non-terminal jobs (one row per matching job,
or a single row with NULL job id when none matches), then the Python
loop keeps only install/uninstall desired states. -/
def planRowsFor (db : ServerDB) (a : Assignment) : List PlanEntry :=
  match db.packages.find? (fun p => p.id == a.package_id) with
  | none => []
  | some p =>
    if a.desired_state = "install" ∨ a.desired_state = "uninstall" then
      let js := nonTerminalJobsFor db a.computer_id a.package_id
      if js = [] then [⟨none, a.desired_state, planPackage a p⟩]
      else js.map (fun j => ⟨some j.id, a.desired_state, planPackage a p⟩)
    else []

/-- `Database.get_plan_for_computer`. -/
def get_plan_for_computer (db : ServerDB) (cid : Nat) : List PlanEntry :=
  (db.assignments.filter (fun a => a.computer_id == cid)).flatMap (planRowsFor db)

/-- The enroll endpoint, `POST /api/v1/clients/enroll`
(src/server/main.py, handle_api): trim the hostname (400 if empty),
reuse the machine with that hostname or create one, store a fresh token
plus metadata, touch last_check_in, and answer 200 with id and token. -/
def handle_enroll (db : ServerDB) (hostnameRaw osRaw archRaw : String)
    (client_version : Option String) (freshToken now : String) :
    (Nat × Option (Nat × String)) × ServerDB :=
  let hostname := trimStr hostnameRaw
  let os_name := trimStr osRaw
  let arch := trimStr archRaw
  if hostname = "" then ((400, none), db)
  else
    let found := get_computer_by_hostname db hostname
    let db1cid : ServerDB × Nat :=
      match found with
      | some comp => (db, comp.id)
      | none => create_computer db hostname os_name arch []
    let db2 := set_token_and_meta db1cid.1 db1cid.2 freshToken os_name arch client_version
    let db3 := update_last_check_in db2 db1cid.2 now
    ((200, some (db1cid.2, freshToken)), db3)

/-- The job events endpoint, `POST /api/v1/jobs/(job_id)/events`
(src/server/main.py, handle_api), after bearer-token extraction: 404 on
unknown job, 401 unless the owning machine's token matches and is not
revoked, otherwise apply `update_job_status` and answer 200. -/
def handle_job_event (db : ServerDB) (job_id : Nat) (token : String)
    (phase : String) (status : Option String) (rc : Option Int)
    (stdout_tail stderr_tail : Option String) (now : String) : Nat × ServerDB :=
  match get_job db job_id with
  | none => (404, db)
  | some job =>
    match get_computer db job.computer_id with
    | none => (401, db)
    | some comp =>
      if comp.token = some token ∧ comp.token_revoked = false then
        (200, update_job_status db job_id phase status rc stdout_tail stderr_tail now)
      else (401, db)

/-- A state-mutating server operation, for reasoning about runs. -/
inductive Op where
  | setAssign (cid pid : Nat) (state now : String)
  | sched (cid pid : Nat) (action : String)
  | jobEvent (job_id : Nat) (phase : String) (status : Option String)
      (rc : Option Int) (stdout_tail stderr_tail : Option String) (now : String)
deriving Repr, DecidableEq

/-- Apply one operation to the store. -/
def applyOp (db : ServerDB) : Op → ServerDB
  | .setAssign c p s n => (set_assignment db c p s n).1
  | .sched c p a => (schedule_job db c p a).1
  | .jobEvent j ph st rc so se n => update_job_status db j ph st rc so se n

/-- Apply a sequence of operations from left to right. -/
def applyOps (ops : List Op) (db : ServerDB) : ServerDB :=
  ops.foldl applyOp db

/-- One row of the agent's `installed_packages` table
(src/client/service/db.py).  `last_action` stores the timestamp the
code writes into that column. -/
structure LedgerRow where
  id : Nat
  package_id : Nat
  name : String
  version : String
  status : String
  last_action : String
  last_rc : Int
deriving Repr, DecidableEq

/-- The agent ledger: the table rows plus its AUTOINCREMENT counter. -/
structure Ledger where
  rows : List LedgerRow
  nextId : Nat
deriving Repr, DecidableEq

/-- `ClientDB.get_installed`: the first row for the package id. -/
def get_installed (l : Ledger) (package_id : Nat) : Option LedgerRow :=
  l.rows.find? (fun r => r.package_id == package_id)

/-- `ClientDB.update_installed`: if a row for the package id exists,
update (every) such row in place; otherwise insert a new row. -/
def update_installed (l : Ledger) (package_id : Nat)
    (name version status : String) (rc : Int) (now : String) : Ledger :=
  match l.rows.find? (fun r => r.package_id == package_id) with
  | some _ =>
    { l with rows := l.rows.map (fun r =>
        if r.package_id == package_id then
          { r with version := version, status := status,
                   last_action := now, last_rc := rc }
        else r) }
  | none =>
    { l with rows := l.rows ++ [⟨l.nextId, package_id, name, version, status, now, rc⟩],
             nextId := l.nextId + 1 }

/-- The agent's effect environment: `cacheHit` is whether the artifact
file already exists, `downloadOk` whether `download_file` succeeds (with
`downloadErr` the exception text otherwise), `fileSha256` the (lower
case) hex digest of the artifact on disk, `run` the observable behaviour
of `run_subprocess` (which is total: it returns the exit code and the
4096-character output tails, or `(1, "", text)` when the subprocess
machinery raises), and `exn` an unexpected exception escaping
`perform_action` into the caller's catch-all. -/
structure Env where
  cacheHit : Bool
  downloadOk : Bool
  downloadErr : String
  fileSha256 : String
  run : String → Int × String × String
  exn : Option String

/-- `installer.verify_sha256`: an empty expected hash always verifies,
otherwise compare the digest case-insensitively. -/
def verify_sha256 (env : Env) (expected_hex : String) : Bool :=
  if expected_hex = "" then true
  else lowerStr env.fileSha256 == lowerStr expected_hex

/-- The artifact cache path `artifact_cache/pkg_(id)_(version)`. -/
def artifact_path (pkg : Package) : String :=
  "artifact_cache/pkg_" ++ toString pkg.id ++ "_" ++ pkg.version

/-- `str.format(file=...)`: substitute the artifact path for the
file placeholder in the command template. -/
def substFile (cmd path : String) : String :=
  replaceStr cmd "{file}" path

/-- `installer.perform_action` after the artifact stage: pre-check,
command selection, main command with silent args, post-check override.
Returns the (rc, stdout tail, stderr tail) triple together with the
list of commands handed to `run_subprocess`. -/
def performAfterArtifact (env : Env) (pkg : Package) (action : String) :
    (Int × String × String) × List String :=
  if pkg.precheck_cmd ≠ "" ∧ (env.run pkg.precheck_cmd).1 ≠ 0 then
    (env.run pkg.precheck_cmd, [pkg.precheck_cmd])
  else
    let preCmds : List String := if pkg.precheck_cmd = "" then [] else [pkg.precheck_cmd]
    let base_cmd := if action = "install" then pkg.install_cmd else pkg.uninstall_cmd
    if base_cmd = "" then ((1, "", "No command defined"), preCmds)
    else
      let cmd0 := substFile base_cmd (artifact_path pkg)
      let cmd := if pkg.silent_args = "" then cmd0 else cmd0 ++ " " ++ pkg.silent_args
      if pkg.postcheck_cmd ≠ "" ∧ (env.run pkg.postcheck_cmd).1 ≠ 0 then
        (env.run pkg.postcheck_cmd, preCmds ++ [cmd, pkg.postcheck_cmd])
      else if pkg.postcheck_cmd ≠ "" then
        (env.run cmd, preCmds ++ [cmd, pkg.postcheck_cmd])
      else
        (env.run cmd, preCmds ++ [cmd])

/-- `installer.perform_action`: download the artifact when a URL is set
and no cached copy exists (failure aborts), verify the checksum when one
is set (mismatch aborts), then run the command pipeline.  An unexpected
exception (`env.exn`) escapes and is converted to `(1, "", text)` by the
caller's catch-all in src/client/service/main.py. -/
def perform_action (env : Env) (pkg : Package) (action : String) :
    (Int × String × String) × List String :=
  match env.exn with
  | some msg => ((1, "", msg), [])
  | none =>
    if pkg.download_url ≠ "" ∧ env.cacheHit = false ∧ env.downloadOk = false then
      ((1, "", "Download failed: " ++ env.downloadErr), [])
    else if pkg.download_url ≠ "" ∧ verify_sha256 env pkg.sha256 = false then
      ((1, "", "Checksum mismatch"), [])
    else
      performAfterArtifact env pkg action

/-- A `shared.models.JobEvent` payload. -/
structure JobEvent where
  phase : String
  status : Option String
  rc : Option Int
  stdout_tail : Option String
  stderr_tail : Option String
deriving Repr, DecidableEq

/-- What processing one plan entry observably does: the events posted to
the server (with their job ids), the commands run, and the new ledger. -/
structure StepResult where
  posted : List (Nat × JobEvent)
  cmds : List String
  ledger : Ledger
deriving Repr

/-- The install idempotency gate in src/client/service/main.py: a ledger
row at the target version with status 'installed' short-circuits. -/
def installGate (l : Ledger) (pkg : Package) : Bool :=
  match get_installed l pkg.id with
  | some r => r.version == pkg.version && r.status == "installed"
  | none => false

/-- The uninstall idempotency gate: no ledger row, or a row whose status
is not 'installed', short-circuits. -/
def uninstallGate (l : Ledger) (pkg : Package) : Bool :=
  match get_installed l pkg.id with
  | some r => !(r.status == "installed")
  | none => true

/-- Whether the idempotency gate short-circuits for the entry. -/
def gateShortCircuit (l : Ledger) (a : PlanEntry) : Bool :=
  (a.action == "install" && installGate l a.package) ||
  (a.action == "uninstall" && uninstallGate l a.package)

/-- The `expected_exit_codes or [0]` success set. -/
def okCodes (pkg : Package) : List Int :=
  if pkg.expected_exit_codes = [] then [0] else pkg.expected_exit_codes

/-- The loop body of src/client/service/main.py for one plan entry:
consult the gate (sending a synthetic success when it short-circuits and
a job id is present), otherwise post a start event when a job id is
present, run `perform_action` (a caught exception yields rc 1), classify
against the success set, update the ledger on success, and post the
completion event when a job id is present. -/
def process_assignment (env : Env) (l : Ledger) (a : PlanEntry) (now : String) :
    StepResult :=
  let pkg := a.package
  if a.action = "install" ∧ installGate l pkg = true then
    let ev : JobEvent := ⟨"completed", some "Succeeded", some 0, some "already installed", some ""⟩
    { posted := match a.job_id with | some j => [(j, ev)] | none => [],
      cmds := [], ledger := l }
  else if a.action = "uninstall" ∧ uninstallGate l pkg = true then
    let ev : JobEvent := ⟨"completed", some "Succeeded", some 0, some "already uninstalled", some ""⟩
    { posted := match a.job_id with | some j => [(j, ev)] | none => [],
      cmds := [], ledger := l }
  else
    let startEvents : List (Nat × JobEvent) :=
      match a.job_id with
      | some j => [(j, ⟨"start", none, none, none, none⟩)]
      | none => []
    let pr := perform_action env pkg a.action
    let rc := pr.1.1
    let out := pr.1.2.1
    let err := pr.1.2.2
    let status := if rc ∈ okCodes pkg then "Succeeded" else "Failed"
    let l2 :=
      if a.action = "install" ∧ status = "Succeeded" then
        update_installed l pkg.id pkg.name pkg.version "installed" rc now
      else if a.action = "uninstall" ∧ status = "Succeeded" then
        update_installed l pkg.id pkg.name pkg.version "uninstalled" rc now
      else l
    let ev : JobEvent := ⟨"completed", some status, some rc, some out, some err⟩
    { posted := startEvents ++ (match a.job_id with | some j => [(j, ev)] | none => []),
      cmds := pr.2, ledger := l2 }

/-! Concrete stores and environments used by the individual claims. -/

/-- A store holding one install assignment for pair (1,1) and no jobs. -/
def dbC2 : ServerDB :=
  { emptyDB with
    packages := [⟨1, "p", "1.0", "windows", "", "", "setup", "remove", "", "", "", []⟩],
    assignments := [⟨1, 1, 1, "install", "t", "t"⟩],
    nextAssignmentId := 2 }

/-- The same store with one Pending job for pair (1,1). -/
def dbC2j : ServerDB :=
  { dbC2 with
    jobs := [⟨1, 1, 1, "install", "Pending", none, none, none, none, none, 0⟩],
    nextJobId := 2 }

/-- An environment in which every subprocess exits 0 with no output. -/
def envQuiet : Env := ⟨false, false, "", "", fun _ => (0, "", ""), none⟩

/-- Package 7 at version 2.0, no artifact, no checks, default exit codes. -/
def pkgC4 : Package := ⟨7, "p", "2.0", "windows", "", "", "setup", "remove", "", "", "", []⟩

/-- A ledger already showing package 7 installed at version 2.0. -/
def lC4 : Ledger := ⟨[⟨1, 7, "p", "2.0", "installed", "t", 0⟩], 2⟩

/-- Package 3 with an artifact URL, checksum "aa" and expected exit codes [1]. -/
def pkgC5 : Package := ⟨3, "p", "1.0", "windows", "http-u", "aa", "setup", "remove", "", "", "", [1]⟩

/-- Environment where the download succeeds but the artifact hashes to "bb". -/
def envC5 : Env := ⟨false, true, "", "bb", fun _ => (0, "", ""), none⟩

/-- Package 4 with a post-check command and expected exit codes [2]. -/
def pkgC6 : Package := ⟨4, "p", "1.0", "windows", "", "", "setup", "remove", "", "", "post", [2]⟩

/-- Environment where the main command exits 0 and the post-check exits 2. -/
def envC6 : Env :=
  ⟨false, false, "", "", fun c => if c == "post" then (2, "po", "pe") else (0, "mo", "me"), none⟩

/-- A store with one machine "host1" holding an old token. -/
def dbC7 : ServerDB :=
  { emptyDB with
    computers := [⟨1, "host1", some "windows", some "amd64", [], none, none,
                   some "oldtok", false⟩],
    nextComputerId := 2 }

/-- A store with one Pending job owned by machine 1 whose token is "tk". -/
def dbC9 : ServerDB :=
  { emptyDB with
    computers := [⟨1, "h", none, none, [], none, none, some "tk", false⟩],
    jobs := [⟨1, 1, 1, "install", "Pending", none, none, none, none, none, 0⟩],
    nextComputerId := 2, nextJobId := 2 }

/-- A two-row ledger with distinct package ids 7 and 9. -/
def lC10 : Ledger :=
  ⟨[⟨1, 7, "p", "1.0", "installed", "t", 0⟩,
    ⟨2, 9, "q", "3.0", "uninstalled", "t", 0⟩], 3⟩

/-- Package 3 with an artifact URL, checksum "aa" and default exit codes. -/
def pkgC5w : Package :=
  ⟨3, "p", "1.0", "windows", "http-u", "aa", "setup", "remove", "", "", "", []⟩

/-- Package 4 with a post-check command and default expected exit codes. -/
def pkgC6w : Package :=
  ⟨4, "p", "1.0", "windows", "", "", "setup", "remove", "", "", "post", []⟩

/-- Package 5 with no install command and expected exit codes [1]. -/
def pkgC8 : Package := ⟨5, "p", "1.0", "windows", "", "", "", "remove", "", "", "", [1]⟩

/-- The at-most-one-row-per-package-id invariant of the agent ledger. -/
def atMostOnePerPackage (l : Ledger) : Prop :=
  ∀ q : Nat, l.rows.countP (fun r => r.package_id == q) ≤ 1

/-- The artifact stage of `perform_action` raises no objection: no URL is
configured, or the artifact is present (cache hit or successful download)
and its checksum verifies. -/
def artifactOk (env : Env) (pkg : Package) : Prop :=
  pkg.download_url = "" ∨
  ((env.cacheHit = true ∨ env.downloadOk = true) ∧
    verify_sha256 env pkg.sha256 = true)

/-- The four internal pipeline failures that make `perform_action` yield
result code 1: a caught exception, a download failure, a checksum mismatch,
or a missing command template. -/
def failsWithOne (env : Env) (pkg : Package) (action : String) : Prop :=
  (∃ msg, env.exn = some msg) ∨
  (env.exn = none ∧ pkg.download_url ≠ "" ∧ env.cacheHit = false ∧
    env.downloadOk = false) ∨
  (env.exn = none ∧ pkg.download_url ≠ "" ∧
    (env.cacheHit = true ∨ env.downloadOk = true) ∧
    verify_sha256 env pkg.sha256 = false) ∨
  (env.exn = none ∧ artifactOk env pkg ∧
    (pkg.precheck_cmd = "" ∨ (env.run pkg.precheck_cmd).1 = 0) ∧
    (if action = "install" then pkg.install_cmd else pkg.uninstall_cmd) = "")

/-- Claim C1: starting from the empty store, the two-operation sequence
setAssignment(1,1,'install'); setAssignment(1,1,'uninstall') leaves TWO jobs
with status 'Pending' for the pair (1,1): neither `set_assignment` nor
`schedule_job` checks for an existing non-terminal job, so the
at-most-one-non-terminal-job invariant claimed by the spec fails. -/
theorem c1_two_nonterminal_jobs :
    (nonTerminalJobsFor
        (applyOps [Op.setAssign 1 1 "install" "t0", Op.setAssign 1 1 "uninstall" "t1"]
          emptyDB) 1 1).map Job.status = ["Pending", "Pending"] := by
  decide

/-- Claim C3: a job finalised as 'Succeeded' (a terminal status) is moved back
to the non-terminal status 'InProgress' by a subsequent 'start' event:
`update_job_status` applies phase transitions without guarding terminal
states, contradicting the claim that no event leaves a terminal state. -/
theorem c3_terminal_state_left :
    ((get_job (applyOps [Op.sched 1 1 "install",
        Op.jobEvent 1 "completed" (some "Succeeded") (some 0) none none "t1"]
        emptyDB) 1).map Job.status = some "Succeeded") ∧
    ((get_job (applyOps [Op.sched 1 1 "install",
        Op.jobEvent 1 "completed" (some "Succeeded") (some 0) none none "t1",
        Op.jobEvent 1 "start" none none none none "t2"]
        emptyDB) 1).map Job.status = some "InProgress") := by
  decide

/-- Claim C2 (counterexample): in a store with one install assignment and no
jobs at all, `get_plan_for_computer` returns an entry for that assignment with
no job id attached, instead of omitting the assignment as converged. -/
theorem c2_counterexample :
    dbC2.jobs = [] ∧
    (get_plan_for_computer dbC2 1).map (fun e => (e.job_id, e.action)) =
      [(none, "install")] := by
  decide

/-- Claim C4 (counterexample): for a plan entry with action 'install', Ledger
at the target version with status 'installed', but no job id (which the server
produces for converged assignments), the agent runs no subprocess but also
posts NO completed event at all, contrary to the claim that a Succeeded
completion is always reported. -/
theorem c4_counterexample :
    gateShortCircuit lC4 ⟨none, "install", pkgC4⟩ = true ∧
    (process_assignment envQuiet lC4 ⟨none, "install", pkgC4⟩ "t").posted = [] ∧
    (process_assignment envQuiet lC4 ⟨none, "install", pkgC4⟩ "t").cmds = [] := by
  decide

/-- Claim C5 (counterexample): with expected_exit_codes = [1], a checksum
mismatch (digest "bb" against configured "aa") is reported as 'Succeeded'
(rc 1 is in the success set) and the Ledger IS updated to 'installed', so the
claim's 'Failed' report and untouched-Ledger conclusions are both false. -/
theorem c5_counterexample :
    verify_sha256 envC5 pkgC5.sha256 = false ∧
    (process_assignment envC5 ⟨[], 1⟩ ⟨some 5, "install", pkgC5⟩ "t").cmds = [] ∧
    (process_assignment envC5 ⟨[], 1⟩ ⟨some 5, "install", pkgC5⟩ "t").posted =
      [(5, ⟨"start", none, none, none, none⟩),
       (5, ⟨"completed", some "Succeeded", some 1, some "", some "Checksum mismatch"⟩)] ∧
    (process_assignment envC5 ⟨[], 1⟩ ⟨some 5, "install", pkgC5⟩ "t").ledger.rows =
      [⟨1, 3, "p", "1.0", "installed", "t", 1⟩] := by
  decide

/-- Claim C6 (counterexample): the main command exits 0, the post-check exits
2 (non-zero), yet because 2 is in the package's expected exit codes the
completion is 'Succeeded' (carrying the post-check output), not the 'Failed'
completion the claim requires. -/
theorem c6_counterexample :
    (envC6.run "setup").1 = 0 ∧ (envC6.run "post").1 = 2 ∧
    (process_assignment envC6 ⟨[], 1⟩ ⟨some 9, "install", pkgC6⟩ "t").posted =
      [(9, ⟨"start", none, none, none, none⟩),
       (9, ⟨"completed", some "Succeeded", some 2, some "po", some "pe"⟩)] := by
  decide

/-- Claim C9: a job event whose phase is neither 'start' nor 'completed'
leaves the entire store unchanged (in particular every field of the job row),
and the events endpoint still acknowledges with a 200 response when the job
exists and the owning machine's token matches and is not revoked. -/
theorem c9_unknown_phase_is_noop (db : ServerDB) (job_id : Nat)
    (token phase : String) (status : Option String) (rc : Option Int)
    (so se : Option String) (now : String)
    (h1 : phase ≠ "start") (h2 : phase ≠ "completed")
    (job : Job) (hjob : get_job db job_id = some job)
    (comp : Computer) (hcomp : get_computer db job.computer_id = some comp)
    (htok : comp.token = some token) (hrev : comp.token_revoked = false) :
    update_job_status db job_id phase status rc so se now = db ∧
    handle_job_event db job_id token phase status rc so se now = (200, db) := by
  have hupd : update_job_status db job_id phase status rc so se now = db := by
    unfold update_job_status
    rw [if_neg h1, if_neg h2]
  refine ⟨hupd, ?_⟩
  unfold handle_job_event
  rw [hjob]
  dsimp only
  rw [hcomp]
  dsimp only
  rw [if_pos ⟨htok, hrev⟩, hupd]

/-- Witness for C9 at a concrete store: one Pending job owned by a machine
with token "tk"; a 'progress' event changes nothing and is answered 200. -/
theorem c9_unknown_phase_is_noop_witness :
    update_job_status dbC9 1 "progress" (some "Failed") (some 3) none none "t" = dbC9 ∧
    handle_job_event dbC9 1 "tk" "progress" (some "Failed") (some 3) none none "t" =
      (200, dbC9) := by
  exact c9_unknown_phase_is_noop dbC9 1 "tk" "progress" (some "Failed") (some 3)
    none none "t" (by decide) (by decide)
    ⟨1, 1, 1, "install", "Pending", none, none, none, none, none, 0⟩ (by decide)
    ⟨1, "h", none, none, [], none, none, some "tk", false⟩ (by decide)
    (by decide) (by decide)

/-- Claim C10: `update_installed` preserves the at-most-one-row-per-package
invariant; when a row for the package id exists the rows are updated in place
(same row ids, same count), and a new row is appended only when none exists. -/
theorem c10_update_installed_invariant (l : Ledger) (pid : Nat)
    (name version status : String) (rc : Int) (now : String)
    (hinv : atMostOnePerPackage l) :
    atMostOnePerPackage (update_installed l pid name version status rc now) ∧
    ((l.rows.find? (fun r => r.package_id == pid)).isSome →
      (update_installed l pid name version status rc now).rows.map LedgerRow.id =
        l.rows.map LedgerRow.id) ∧
    (l.rows.find? (fun r => r.package_id == pid) = none →
      (update_installed l pid name version status rc now).rows =
        l.rows ++ [⟨l.nextId, pid, name, version, status, now, rc⟩]) := by
  rcases hf : l.rows.find? (fun r => r.package_id == pid) with _ | r
  · refine ⟨?_, ?_, ?_⟩
    · intro q
      unfold update_installed
      rw [hf]
      simp only [List.countP_append]
      have hnone : ∀ a ∈ l.rows, ¬ ((fun r => r.package_id == pid) a = true) := by
        intro a ha
        have := List.find?_eq_none.mp hf a ha
        simpa using this
      by_cases hq : q = pid
      · subst hq
        have hz : l.rows.countP (fun r => r.package_id == q) = 0 := by
          rw [List.countP_eq_zero]
          intro a ha
          exact hnone a ha
        simp [hz, List.countP_cons]
      · have : (([⟨l.nextId, pid, name, version, status, now, rc⟩] :
            List LedgerRow).countP (fun r => r.package_id == q)) = 0 := by
          simp [List.countP_cons, Nat.beq_eq_true_eq]
          omega
        rw [this]
        simpa using hinv q
    · intro hs
      rw [hf] at hs
      simp at hs
    · intro _
      unfold update_installed
      rw [hf]
  · refine ⟨?_, ?_, ?_⟩
    · intro q
      unfold update_installed
      rw [hf]
      simp only [List.countP_map]
      have hpt : ∀ a ∈ l.rows,
          (((fun r => r.package_id == q) ∘ (fun r =>
            if r.package_id == pid then
              { r with version := version, status := status,
                       last_action := now, last_rc := rc }
            else r)) a = true ↔ (fun r => r.package_id == q) a = true) := by
        intro a _
        by_cases h : (a.package_id == pid) = true
        · simp only [Function.comp_apply, if_pos h]
        · simp only [Function.comp_apply, if_neg h]
      rw [List.countP_congr hpt]
      exact hinv q
    · intro _
      unfold update_installed
      rw [hf]
      simp only [List.map_map]
      refine List.map_congr_left ?_
      intro a _
      by_cases h : (a.package_id == pid) = true
      · simp only [Function.comp_apply, if_pos h]
      · simp only [Function.comp_apply, if_neg h]
    · intro hnone
      rw [hf] at hnone
      simp at hnone

/-- Witness for C10: updating package 7 in a two-row ledger keeps every
package id unique and rewrites the row in place. -/
theorem c10_update_installed_invariant_witness :
    atMostOnePerPackage (update_installed lC10 7 "p" "2.0" "installed" 0 "t2") ∧
    ((lC10.rows.find? (fun r => r.package_id == 7)).isSome →
      (update_installed lC10 7 "p" "2.0" "installed" 0 "t2").rows.map LedgerRow.id =
        lC10.rows.map LedgerRow.id) ∧
    (lC10.rows.find? (fun r => r.package_id == 7) = none →
      (update_installed lC10 7 "p" "2.0" "installed" 0 "t2").rows =
        lC10.rows ++ [⟨lC10.nextId, 7, "p", "2.0", "installed", "t2", 0⟩]) := by
  refine c10_update_installed_invariant lC10 7 "p" "2.0" "installed" 0 "t2" ?_
  intro q
  simp only [lC10, List.countP_cons, List.countP_nil]
  by_cases h7 : (7 : Nat) = q <;> by_cases h9 : (9 : Nat) = q
  all_goals simp_all
  all_goals omega

/-- Claim C7: enrolling a hostname that already names a machine creates no
new record: the store keeps exactly the same computers (mapped in place), the
response carries the existing machine's id together with the fresh token, and
that machine's token, os, arch and (when provided) client_version are
replaced, its last_check_in touched. -/
theorem c7_enroll_existing_hostname (db : ServerDB)
    (hostnameRaw osRaw archRaw : String) (cv : Option String)
    (tok now : String) (m : Computer)
    (hne : trimStr hostnameRaw ≠ "")
    (hfind : get_computer_by_hostname db (trimStr hostnameRaw) = some m) :
    handle_enroll db hostnameRaw osRaw archRaw cv tok now =
      ((200, some (m.id, tok)),
       { db with computers := db.computers.map (fun c =>
           if c.id == m.id then
             { c with token := some tok, os := some (trimStr osRaw),
                      arch := some (trimStr archRaw),
                      client_version := match cv with
                        | some v => some v
                        | none => c.client_version,
                      last_check_in := some now }
           else c) }) := by
  unfold handle_enroll
  rw [if_neg hne, hfind]
  dsimp only
  unfold set_token_and_meta update_last_check_in
  refine congrArg (Prod.mk _) ?_
  simp only [List.map_map]
  refine congrArg (fun x => { db with computers := x }) ?_
  refine List.map_congr_left ?_
  intro c _
  by_cases hc : (c.id == m.id) = true
  · simp only [Function.comp_apply, if_pos hc]
  · simp only [Function.comp_apply, if_neg hc]

/-- Witness for C7: re-enrolling hostname "host1" in a one-machine store
returns id 1 with the fresh token and rewrites the machine in place. -/
theorem c7_enroll_existing_hostname_witness :
    handle_enroll dbC7 "host1" "linux" "x86_64" none "newtok" "t9" =
      ((200, some (1, "newtok")),
       { dbC7 with computers := dbC7.computers.map (fun c =>
           if c.id == 1 then
             { c with token := some "newtok", os := some (trimStr "linux"),
                      arch := some (trimStr "x86_64"),
                      client_version := c.client_version,
                      last_check_in := some "t9" }
           else c) }) := by
  exact c7_enroll_existing_hostname dbC7 "host1" "linux" "x86_64" none "newtok" "t9"
    ⟨1, "host1", some "windows", some "amd64", [], none, none, some "oldtok", false⟩
    (by decide) (by decide)

/-- Claim C4 (amended): when the idempotency gate short-circuits (install
with the Ledger at the target version and status 'installed', or uninstall
with no Ledger entry or a non-'installed' entry), the agent runs no
subprocess and leaves the Ledger unchanged; it posts the synthetic
'completed'/'Succeeded'/rc-0 event exactly when the plan entry carries a job
id, and posts nothing when the entry has no job id. -/
theorem c4_gate_skips_execution (env : Env) (l : Ledger) (a : PlanEntry)
    (now : String) (h : gateShortCircuit l a = true) :
    (process_assignment env l a now).cmds = [] ∧
    (process_assignment env l a now).ledger = l ∧
    (a.job_id = none → (process_assignment env l a now).posted = []) ∧
    (∀ j, a.job_id = some j →
      (process_assignment env l a now).posted =
        [(j, ⟨"completed", some "Succeeded", some 0,
              some (if a.action = "install" then "already installed"
                    else "already uninstalled"), some ""⟩)]) := by
  unfold gateShortCircuit at h
  rw [Bool.or_eq_true, Bool.and_eq_true, Bool.and_eq_true] at h
  rcases h with ⟨hact, hgate⟩ | ⟨hact, hgate⟩
  · have hact2 : a.action = "install" := by simpa using hact
    have hres : process_assignment env l a now =
        { posted := match a.job_id with
            | some j => [(j, ⟨"completed", some "Succeeded", some 0,
                              some "already installed", some ""⟩)]
            | none => [],
          cmds := [], ledger := l } := by
      simp only [process_assignment]
      rw [if_pos ⟨hact2, hgate⟩]
    rw [hres, hact2]
    refine ⟨rfl, rfl, ?_, ?_⟩
    · intro hj
      rw [hj]
    · intro j hj
      rw [hj]
      simp
  · have hact2 : a.action = "uninstall" := by simpa using hact
    have hnotInstall : ¬(a.action = "install" ∧ installGate l a.package = true) := by
      rintro ⟨h1, _⟩
      rw [hact2] at h1
      exact absurd h1 (by decide)
    have hres : process_assignment env l a now =
        { posted := match a.job_id with
            | some j => [(j, ⟨"completed", some "Succeeded", some 0,
                              some "already uninstalled", some ""⟩)]
            | none => [],
          cmds := [], ledger := l } := by
      simp only [process_assignment]
      rw [if_neg hnotInstall, if_pos ⟨hact2, hgate⟩]
    rw [hres, hact2]
    refine ⟨rfl, rfl, ?_, ?_⟩
    · intro hj
      rw [hj]
    · intro j hj
      rw [hj]
      simp

/-- Witness for C4 (amended): package 7 already installed at version 2.0 and
a job id present: exactly the synthetic success event is posted. -/
theorem c4_gate_skips_execution_witness :
    (process_assignment envQuiet lC4 ⟨some 11, "install", pkgC4⟩ "t").cmds = [] ∧
    (process_assignment envQuiet lC4 ⟨some 11, "install", pkgC4⟩ "t").ledger = lC4 ∧
    ((⟨some 11, "install", pkgC4⟩ : PlanEntry).job_id = none →
      (process_assignment envQuiet lC4 ⟨some 11, "install", pkgC4⟩ "t").posted = []) ∧
    (∀ j, (⟨some 11, "install", pkgC4⟩ : PlanEntry).job_id = some j →
      (process_assignment envQuiet lC4 ⟨some 11, "install", pkgC4⟩ "t").posted =
        [(j, ⟨"completed", some "Succeeded", some 0,
              some (if (⟨some 11, "install", pkgC4⟩ : PlanEntry).action = "install"
                    then "already installed" else "already uninstalled"),
              some ""⟩)]) := by
  exact c4_gate_skips_execution envQuiet lC4 ⟨some 11, "install", pkgC4⟩ "t" (by decide)

/-- A false gate means neither branch condition of the loop body holds. -/
theorem gate_false_conds (l : Ledger) (a : PlanEntry)
    (h : gateShortCircuit l a = false) :
    ¬(a.action = "install" ∧ installGate l a.package = true) ∧
    ¬(a.action = "uninstall" ∧ uninstallGate l a.package = true) := by
  constructor
  · rintro ⟨h1, h2⟩
    unfold gateShortCircuit at h
    rw [h1, h2] at h
    simp at h
  · rintro ⟨h1, h2⟩
    unfold gateShortCircuit at h
    rw [h1, h2] at h
    simp at h

/-- When the download-or-cache step succeeds but the checksum does not
verify, `perform_action` aborts with rc 1, the checksum message, and no
command run. -/
theorem perform_action_checksum (env : Env) (pkg : Package) (action : String)
    (hexn : env.exn = none) (hurl : pkg.download_url ≠ "")
    (hget : env.cacheHit = true ∨ env.downloadOk = true)
    (hver : verify_sha256 env pkg.sha256 = false) :
    perform_action env pkg action = ((1, "", "Checksum mismatch"), []) := by
  unfold perform_action
  rw [hexn]
  dsimp only
  have hc1 : ¬(pkg.download_url ≠ "" ∧ env.cacheHit = false ∧ env.downloadOk = false) := by
    rintro ⟨_, hch, hdl⟩
    rcases hget with hx | hx
    · rw [hx] at hch
      exact absurd hch (by decide)
    · rw [hx] at hdl
      exact absurd hdl (by decide)
  rw [if_neg hc1, if_pos ⟨hurl, hver⟩]

/-- Claim C5 (amended): a checksum mismatch on a retrieved artifact runs no
pre-check, main or post-check command and leaves the Ledger unchanged, and —
provided 1 is not among the package's expected exit codes — the job is
reported 'Failed' with rc 1 and the 'Checksum mismatch' error tail. -/
theorem c5_checksum_mismatch_aborts (env : Env) (l : Ledger) (a : PlanEntry)
    (now : String) (j : Nat)
    (hj : a.job_id = some j)
    (hgate : gateShortCircuit l a = false)
    (hexn : env.exn = none)
    (hurl : a.package.download_url ≠ "")
    (hget : env.cacheHit = true ∨ env.downloadOk = true)
    (hsha : a.package.sha256 ≠ "")
    (hdig : lowerStr env.fileSha256 ≠ lowerStr a.package.sha256)
    (hok : (1 : Int) ∉ okCodes a.package) :
    (process_assignment env l a now).cmds = [] ∧
    (process_assignment env l a now).ledger = l ∧
    (process_assignment env l a now).posted =
      [(j, ⟨"start", none, none, none, none⟩),
       (j, ⟨"completed", some "Failed", some 1, some "", some "Checksum mismatch"⟩)] := by
  obtain ⟨hg1, hg2⟩ := gate_false_conds l a hgate
  have hver : verify_sha256 env a.package.sha256 = false := by
    unfold verify_sha256
    rw [if_neg hsha]
    exact beq_eq_false_iff_ne.mpr hdig
  have hperf := perform_action_checksum env a.package a.action hexn hurl hget hver
  have hstatus : (if (1 : Int) ∈ okCodes a.package then "Succeeded" else "Failed")
      = "Failed" := if_neg hok
  have hres : process_assignment env l a now =
      { posted := [(j, ⟨"start", none, none, none, none⟩),
                   (j, ⟨"completed", some "Failed", some 1, some "",
                        some "Checksum mismatch"⟩)],
        cmds := [], ledger := l } := by
    simp only [process_assignment]
    rw [if_neg hg1, if_neg hg2, hperf, hj]
    dsimp only
    rw [hstatus]
    have hl1 : ¬(a.action = "install" ∧ ("Failed" : String) = "Succeeded") := by
      rintro ⟨_, hx⟩
      exact absurd hx (by decide)
    have hl2 : ¬(a.action = "uninstall" ∧ ("Failed" : String) = "Succeeded") := by
      rintro ⟨_, hx⟩
      exact absurd hx (by decide)
    rw [if_neg hl1, if_neg hl2]
    rfl
  rw [hres]
  exact ⟨rfl, rfl, rfl⟩

/-- Witness for C5 (amended) at the concrete mismatch scenario with default
expected exit codes. -/
theorem c5_checksum_mismatch_aborts_witness :
    (process_assignment envC5 ⟨[], 1⟩ ⟨some 5, "install", pkgC5w⟩ "t").cmds = [] ∧
    (process_assignment envC5 ⟨[], 1⟩ ⟨some 5, "install", pkgC5w⟩ "t").ledger = ⟨[], 1⟩ ∧
    (process_assignment envC5 ⟨[], 1⟩ ⟨some 5, "install", pkgC5w⟩ "t").posted =
      [(5, ⟨"start", none, none, none, none⟩),
       (5, ⟨"completed", some "Failed", some 1, some "", some "Checksum mismatch"⟩)] := by
  exact c5_checksum_mismatch_aborts envC5 ⟨[], 1⟩ ⟨some 5, "install", pkgC5w⟩ "t" 5
    rfl (by decide) rfl (by decide) (Or.inr rfl) (by decide) (by decide) (by decide)

/-- When the artifact stage raises no objection (no URL configured, or the
artifact is present/downloaded and its checksum verifies), `perform_action`
proceeds to the command pipeline. -/
theorem perform_action_artifact_ok (env : Env) (pkg : Package) (action : String)
    (hexn : env.exn = none) (hart : artifactOk env pkg) :
    perform_action env pkg action = performAfterArtifact env pkg action := by
  unfold perform_action
  rw [hexn]
  dsimp only
  rcases hart with hurl | ⟨hget, hver⟩
  · have hc1 : ¬(pkg.download_url ≠ "" ∧ env.cacheHit = false ∧ env.downloadOk = false) := by
      rintro ⟨hx, _, _⟩
      exact hx hurl
    have hc2 : ¬(pkg.download_url ≠ "" ∧ verify_sha256 env pkg.sha256 = false) := by
      rintro ⟨hx, _⟩
      exact hx hurl
    rw [if_neg hc1, if_neg hc2]
  · have hc1 : ¬(pkg.download_url ≠ "" ∧ env.cacheHit = false ∧ env.downloadOk = false) := by
      rintro ⟨_, hch, hdl⟩
      rcases hget with hx | hx
      · rw [hx] at hch
        exact absurd hch (by decide)
      · rw [hx] at hdl
        exact absurd hdl (by decide)
    have hc2 : ¬(pkg.download_url ≠ "" ∧ verify_sha256 env pkg.sha256 = false) := by
      rintro ⟨_, hv⟩
      rw [hver] at hv
      exact absurd hv (by decide)
    rw [if_neg hc1, if_neg hc2]

/-- Claim C6 (amended): when the pipeline reaches the main command (artifact
stage quiet, pre-check passing, command template present) and the post-check
exits non-zero, the post-check's exit code and output tails replace the main
command's in the result; and — provided the post-check's exit code is not
among the package's expected exit codes — the reported completion is 'Failed'
carrying the post-check's code and output. -/
theorem c6_postcheck_overrides (env : Env) (l : Ledger) (a : PlanEntry)
    (now : String) (j : Nat)
    (hj : a.job_id = some j)
    (hgate : gateShortCircuit l a = false)
    (hexn : env.exn = none)
    (hart : artifactOk env a.package)
    (hpre : a.package.precheck_cmd = "" ∨ (env.run a.package.precheck_cmd).1 = 0)
    (hcmd : (if a.action = "install" then a.package.install_cmd
             else a.package.uninstall_cmd) ≠ "")
    (hpost : a.package.postcheck_cmd ≠ "")
    (hrc2 : (env.run a.package.postcheck_cmd).1 ≠ 0) :
    (perform_action env a.package a.action).1 = env.run a.package.postcheck_cmd ∧
    ((env.run a.package.postcheck_cmd).1 ∉ okCodes a.package →
      (process_assignment env l a now).posted =
        [(j, ⟨"start", none, none, none, none⟩),
         (j, ⟨"completed", some "Failed", some (env.run a.package.postcheck_cmd).1,
              some (env.run a.package.postcheck_cmd).2.1,
              some (env.run a.package.postcheck_cmd).2.2⟩)]) := by
  obtain ⟨hg1, hg2⟩ := gate_false_conds l a hgate
  have hnopre : ¬(a.package.precheck_cmd ≠ "" ∧ (env.run a.package.precheck_cmd).1 ≠ 0) := by
    rintro ⟨hne, hnz⟩
    rcases hpre with hx | hx
    · exact hne hx
    · exact hnz hx
  have hperf : perform_action env a.package a.action =
      (env.run a.package.postcheck_cmd,
       (if a.package.precheck_cmd = "" then [] else [a.package.precheck_cmd]) ++
         [(if a.package.silent_args = "" then
             substFile (if a.action = "install" then a.package.install_cmd
                        else a.package.uninstall_cmd) (artifact_path a.package)
           else
             substFile (if a.action = "install" then a.package.install_cmd
                        else a.package.uninstall_cmd) (artifact_path a.package) ++
               " " ++ a.package.silent_args),
          a.package.postcheck_cmd]) := by
    rw [perform_action_artifact_ok env a.package a.action hexn hart]
    unfold performAfterArtifact
    rw [if_neg hnopre]
    dsimp only
    rw [if_neg hcmd, if_pos ⟨hpost, hrc2⟩]
  refine ⟨by rw [hperf], ?_⟩
  intro hok
  have hstatus : (if (env.run a.package.postcheck_cmd).1 ∈ okCodes a.package
      then "Succeeded" else "Failed") = "Failed" := if_neg hok
  simp only [process_assignment]
  rw [if_neg hg1, if_neg hg2, hperf, hj]
  dsimp only
  rw [hstatus]
  rfl

/-- Witness for C6 (amended): main command exits 0, post-check exits 2 with
default success set, so the completion is Failed carrying "po"/"pe". -/
theorem c6_postcheck_overrides_witness :
    (perform_action envC6 pkgC6w "install").1 = envC6.run pkgC6w.postcheck_cmd ∧
    ((envC6.run pkgC6w.postcheck_cmd).1 ∉ okCodes pkgC6w →
      (process_assignment envC6 ⟨[], 1⟩ ⟨some 9, "install", pkgC6w⟩ "t").posted =
        [(9, ⟨"start", none, none, none, none⟩),
         (9, ⟨"completed", some "Failed", some (envC6.run pkgC6w.postcheck_cmd).1,
              some (envC6.run pkgC6w.postcheck_cmd).2.1,
              some (envC6.run pkgC6w.postcheck_cmd).2.2⟩)]) := by
  exact c6_postcheck_overrides envC6 ⟨[], 1⟩ ⟨some 9, "install", pkgC6w⟩ "t" 9
    rfl (by decide) rfl (Or.inl rfl) (Or.inl rfl) (by decide) (by decide) (by decide)

/-- Every `failsWithOne` failure mode produces result code 1 with empty
stdout. -/
theorem perform_rc_one (env : Env) (pkg : Package) (action : String)
    (h : failsWithOne env pkg action) :
    ∃ e cs, perform_action env pkg action = ((1, "", e), cs) := by
  rcases h with ⟨msg, hmsg⟩ | ⟨hexn, hurl, hch, hdl⟩ |
    ⟨hexn, hurl, hget, hver⟩ | ⟨hexn, hart, hpre, hcmd⟩
  · refine ⟨msg, [], ?_⟩
    unfold perform_action
    rw [hmsg]
  · refine ⟨"Download failed: " ++ env.downloadErr, [], ?_⟩
    unfold perform_action
    rw [hexn]
    dsimp only
    rw [if_pos ⟨hurl, hch, hdl⟩]
  · exact ⟨"Checksum mismatch", [],
      perform_action_checksum env pkg action hexn hurl hget hver⟩
  · refine ⟨"No command defined",
      (if pkg.precheck_cmd = "" then [] else [pkg.precheck_cmd]), ?_⟩
    rw [perform_action_artifact_ok env pkg action hexn hart]
    unfold performAfterArtifact
    have hnopre : ¬(pkg.precheck_cmd ≠ "" ∧ (env.run pkg.precheck_cmd).1 ≠ 0) := by
      rintro ⟨hne, hnz⟩
      rcases hpre with hx | hx
      · exact hne hx
      · exact hnz hx
    rw [if_neg hnopre]
    dsimp only
    rw [if_pos hcmd]

/-- After any `update_installed`, some row records the package at the written
version and status. -/
theorem update_installed_mem (l : Ledger) (pid : Nat)
    (name version status : String) (rc : Int) (now : String) :
    ∃ row ∈ (update_installed l pid name version status rc now).rows,
      row.package_id = pid ∧ row.version = version ∧ row.status = status := by
  rcases hf : l.rows.find? (fun r => r.package_id == pid) with _ | r
  · unfold update_installed
    rw [hf]
    exact ⟨⟨l.nextId, pid, name, version, status, now, rc⟩, by simp, rfl, rfl, rfl⟩
  · have hmem := List.mem_of_find?_eq_some hf
    have hp : (r.package_id == pid) = true := by
      simpa using List.find?_some hf
    unfold update_installed
    rw [hf]
    refine ⟨{ r with version := version, status := status,
                     last_action := now, last_rc := rc }, ?_, ?_, rfl, rfl⟩
    · dsimp only
      refine List.mem_map.mpr ⟨r, hmem, ?_⟩
      rw [if_pos hp]
    · simpa using hp

/-- Reduction of the loop body when the gate does not short-circuit:
the agent posts start/completed around `perform_action`, classifies the
result code against the success set, and updates the ledger on success. -/
theorem process_assignment_exec (env : Env) (l : Ledger) (a : PlanEntry)
    (now : String) (rc : Int) (out err : String) (cs : List String)
    (hg1 : ¬(a.action = "install" ∧ installGate l a.package = true))
    (hg2 : ¬(a.action = "uninstall" ∧ uninstallGate l a.package = true))
    (hperf : perform_action env a.package a.action = ((rc, out, err), cs)) :
    process_assignment env l a now =
      { posted := (match a.job_id with
          | some j => [(j, ⟨"start", none, none, none, none⟩)]
          | none => []) ++
          (match a.job_id with
          | some j => [(j, ⟨"completed",
              some (if rc ∈ okCodes a.package then "Succeeded" else "Failed"),
              some rc, some out, some err⟩)]
          | none => []),
        cmds := cs,
        ledger :=
          if a.action = "install" ∧
              (if rc ∈ okCodes a.package then "Succeeded" else "Failed") = "Succeeded" then
            update_installed l a.package.id a.package.name a.package.version
              "installed" rc now
          else if a.action = "uninstall" ∧
              (if rc ∈ okCodes a.package then "Succeeded" else "Failed") = "Succeeded" then
            update_installed l a.package.id a.package.name a.package.version
              "uninstalled" rc now
          else l } := by
  simp only [process_assignment]
  rw [if_neg hg1, if_neg hg2, hperf]

/-- Claim C8: when 1 is among the package's expected exit codes, every
internal pipeline failure yielding rc 1 (exception, download failure,
checksum mismatch, missing command template) is classified 'Succeeded' by
the agent, the Ledger is marked 'installed'/'uninstalled' at the target
version although nothing was performed, and any posted completion event
carries status 'Succeeded' with rc 1. -/
theorem c8_expected_code_one_masks_failures (env : Env) (l : Ledger)
    (a : PlanEntry) (now : String)
    (hone : (1 : Int) ∈ a.package.expected_exit_codes)
    (hgate : gateShortCircuit l a = false)
    (hact : a.action = "install" ∨ a.action = "uninstall")
    (hfail : failsWithOne env a.package a.action) :
    (perform_action env a.package a.action).1.1 = 1 ∧
    (∃ row ∈ (process_assignment env l a now).ledger.rows,
       row.package_id = a.package.id ∧ row.version = a.package.version ∧
       row.status = (if a.action = "install" then "installed" else "uninstalled")) ∧
    (∀ j, a.job_id = some j → ∃ o e,
       (j, (⟨"completed", some "Succeeded", some 1, some o, some e⟩ : JobEvent)) ∈
         (process_assignment env l a now).posted) := by
  obtain ⟨hg1, hg2⟩ := gate_false_conds l a hgate
  obtain ⟨emsg, cs, hperf⟩ := perform_rc_one env a.package a.action hfail
  have hokmem : (1 : Int) ∈ okCodes a.package := by
    unfold okCodes
    rw [if_neg (List.ne_nil_of_mem hone)]
    exact hone
  have hstatus : (if (1 : Int) ∈ okCodes a.package then "Succeeded" else "Failed")
      = "Succeeded" := if_pos hokmem
  have hred := process_assignment_exec env l a now 1 "" emsg cs hg1 hg2 hperf
  refine ⟨by rw [hperf], ?_, ?_⟩
  · rw [hred]
    dsimp only
    rw [hstatus]
    rcases hact with hi | hu
    · rw [if_pos ⟨hi, rfl⟩, hi]
      rw [if_pos (rfl : ("install" : String) = "install")]
      exact update_installed_mem l a.package.id a.package.name a.package.version
        "installed" 1 now
    · have hni : ¬(a.action = "install" ∧ ("Succeeded" : String) = "Succeeded") := by
        rintro ⟨hx, _⟩
        rw [hu] at hx
        exact absurd hx (by decide)
      rw [if_neg hni, if_pos ⟨hu, rfl⟩, hu]
      rw [if_neg (by decide : ¬("uninstall" : String) = "install")]
      exact update_installed_mem l a.package.id a.package.name a.package.version
        "uninstalled" 1 now
  · intro j hj
    rw [hred]
    dsimp only
    rw [hj]
    dsimp only
    refine ⟨"", emsg, ?_⟩
    rw [hstatus]
    simp

/-- Witness for C8: a package with no install command and expected exit codes
[1]: the missing-template failure is recorded as an installed success. -/
theorem c8_expected_code_one_masks_failures_witness :
    (perform_action envQuiet pkgC8 "install").1.1 = 1 ∧
    (∃ row ∈ (process_assignment envQuiet ⟨[], 1⟩ ⟨some 3, "install", pkgC8⟩ "t").ledger.rows,
       row.package_id = pkgC8.id ∧ row.version = pkgC8.version ∧
       row.status = (if ("install" : String) = "install" then "installed"
                     else "uninstalled")) ∧
    (∀ j, (some 3 : Option Nat) = some j → ∃ o e,
       (j, (⟨"completed", some "Succeeded", some 1, some o, some e⟩ : JobEvent)) ∈
         (process_assignment envQuiet ⟨[], 1⟩ ⟨some 3, "install", pkgC8⟩ "t").posted) := by
  exact c8_expected_code_one_masks_failures envQuiet ⟨[], 1⟩
    ⟨some 3, "install", pkgC8⟩ "t" (by decide) (by decide) (Or.inl rfl)
    (Or.inr (Or.inr (Or.inr ⟨rfl, Or.inl rfl, Or.inl rfl, by decide⟩)))

/-- `planRowsFor` is empty when the package join fails. -/
theorem planRowsFor_none (db : ServerDB) (a : Assignment)
    (h : db.packages.find? (fun q => q.id == a.package_id) = none) :
    planRowsFor db a = [] := by
  unfold planRowsFor
  rw [h]

/-- `planRowsFor` when the package join succeeds. -/
theorem planRowsFor_some (db : ServerDB) (a : Assignment) (p : Package)
    (h : db.packages.find? (fun q => q.id == a.package_id) = some p) :
    planRowsFor db a =
      (if a.desired_state = "install" ∨ a.desired_state = "uninstall" then
        (if nonTerminalJobsFor db a.computer_id a.package_id = [] then
          [⟨none, a.desired_state, planPackage a p⟩]
        else (nonTerminalJobsFor db a.computer_id a.package_id).map
          (fun j => ⟨some j.id, a.desired_state, planPackage a p⟩))
      else []) := by
  unfold planRowsFor
  rw [h]

/-- Decomposition of membership in the non-terminal job join. -/
theorem nonTerminalJobsFor_mem (db : ServerDB) (cid pid : Nat) (j : Job)
    (hj : j ∈ nonTerminalJobsFor db cid pid) :
    j ∈ db.jobs ∧ j.computer_id = cid ∧ j.package_id = pid ∧
    (j.status = "Pending" ∨ j.status = "InProgress") := by
  unfold nonTerminalJobsFor at hj
  obtain ⟨hmem, hpred⟩ := List.mem_filter.mp hj
  simp only [Bool.and_eq_true, Bool.or_eq_true, beq_iff_eq] at hpred
  exact ⟨hmem, hpred.1.1, hpred.1.2, hpred.2⟩

/-- What one assignment's plan rows look like: the action is the desired
state (necessarily actionable), the package id is the assignment's, and the
row either has no job id or carries the id of a matched non-terminal job. -/
theorem planRowsFor_sound (db : ServerDB) (a : Assignment) (e : PlanEntry)
    (he : e ∈ planRowsFor db a) :
    e.action = a.desired_state ∧
    (a.desired_state = "install" ∨ a.desired_state = "uninstall") ∧
    e.package.id = a.package_id ∧
    (e.job_id = none ∨
      ∃ j ∈ nonTerminalJobsFor db a.computer_id a.package_id,
        e.job_id = some j.id) := by
  rcases hp : db.packages.find? (fun q => q.id == a.package_id) with _ | p
  · rw [planRowsFor_none db a hp] at he
    exact absurd he (List.not_mem_nil e)
  · rw [planRowsFor_some db a p hp] at he
    by_cases hd : a.desired_state = "install" ∨ a.desired_state = "uninstall"
    · rw [if_pos hd] at he
      by_cases hjs : nonTerminalJobsFor db a.computer_id a.package_id = []
      · rw [if_pos hjs] at he
        have hse : e = ⟨none, a.desired_state, planPackage a p⟩ := by
          simpa using he
        subst hse
        exact ⟨rfl, hd, rfl, Or.inl rfl⟩
      · rw [if_neg hjs] at he
        obtain ⟨j, hjmem, hje⟩ := List.mem_map.mp he
        subst hje
        exact ⟨rfl, hd, rfl, Or.inr ⟨j, hjmem, rfl⟩⟩
    · rw [if_neg hd] at he
      exact absurd he (List.not_mem_nil e)

/-- Claim C2 (amended): every plan entry of `get_plan_for_computer` carries
an actionable action; an attached job id always names a non-terminal job of
that machine and package; every actionable assignment whose package exists
contributes an entry — with NO job id exactly when no non-terminal job
exists, rather than being omitted as the spec describes; and for EACH
non-terminal job of such an assignment the plan carries an entry with that
job's id. -/
theorem c2_plan_characterization (db : ServerDB) (cid : Nat) :
    (∀ e ∈ get_plan_for_computer db cid,
        e.action = "install" ∨ e.action = "uninstall") ∧
    (∀ e ∈ get_plan_for_computer db cid, ∀ jid, e.job_id = some jid →
        ∃ j ∈ db.jobs, j.id = jid ∧ j.computer_id = cid ∧
          j.package_id = e.package.id ∧
          (j.status = "Pending" ∨ j.status = "InProgress")) ∧
    (∀ a ∈ db.assignments, a.computer_id = cid →
        (a.desired_state = "install" ∨ a.desired_state = "uninstall") →
        ∀ p, db.packages.find? (fun q => q.id == a.package_id) = some p →
        ∃ e ∈ get_plan_for_computer db cid,
          e.package.id = a.package_id ∧ e.action = a.desired_state ∧
          (e.job_id = none ↔ nonTerminalJobsFor db cid a.package_id = [])) ∧
    (∀ a ∈ db.assignments, a.computer_id = cid →
        (a.desired_state = "install" ∨ a.desired_state = "uninstall") →
        ∀ p, db.packages.find? (fun q => q.id == a.package_id) = some p →
        ∀ j ∈ nonTerminalJobsFor db cid a.package_id,
          ∃ e ∈ get_plan_for_computer db cid,
            e.package.id = a.package_id ∧ e.action = a.desired_state ∧
            e.job_id = some j.id) := by
  refine ⟨?_, ?_, ?_, ?_⟩
  · intro e he
    obtain ⟨a, ha, hea⟩ := List.mem_flatMap.mp he
    obtain ⟨hact, hd, _, _⟩ := planRowsFor_sound db a e hea
    rw [hact]
    exact hd
  · intro e he jid hjid
    obtain ⟨a, ha, hea⟩ := List.mem_flatMap.mp he
    obtain ⟨hacid⟩ : a.computer_id = cid ∧ True := by
      obtain ⟨_, hpred⟩ := List.mem_filter.mp ha
      exact ⟨by simpa using hpred, trivial⟩
    obtain ⟨_, _, hpkg, hjob⟩ := planRowsFor_sound db a e hea
    rcases hjob with hnone | ⟨j, hjmem, hjsome⟩
    · rw [hnone] at hjid
      cases hjid
    · rw [hjsome] at hjid
      obtain ⟨hjdb, hjc, hjp, hjst⟩ :=
        nonTerminalJobsFor_mem db a.computer_id a.package_id j hjmem
      refine ⟨j, hjdb, ?_, ?_, ?_, hjst⟩
      · exact (Option.some.injEq _ _ ▸ hjid : j.id = jid)
      · rw [hjc, hacid]
      · rw [hjp, hpkg]
  · intro a ha hacid hd p hp
    have hafilter : a ∈ db.assignments.filter (fun x => x.computer_id == cid) :=
      List.mem_filter.mpr ⟨ha, by simp [hacid]⟩
    by_cases hjs : nonTerminalJobsFor db a.computer_id a.package_id = []
    · refine ⟨⟨none, a.desired_state, planPackage a p⟩, ?_, rfl, rfl, ?_⟩
      · refine List.mem_flatMap.mpr ⟨a, hafilter, ?_⟩
        rw [planRowsFor_some db a p hp, if_pos hd, if_pos hjs]
        simp
      · constructor
        · intro _
          rw [← hacid]
          exact hjs
        · intro _
          rfl
    · obtain ⟨j, js', hcons⟩ := List.exists_cons_of_ne_nil hjs
      refine ⟨⟨some j.id, a.desired_state, planPackage a p⟩, ?_, rfl, rfl, ?_⟩
      · refine List.mem_flatMap.mpr ⟨a, hafilter, ?_⟩
        rw [planRowsFor_some db a p hp, if_pos hd, if_neg hjs]
        refine List.mem_map.mpr ⟨j, ?_, rfl⟩
        rw [hcons]
        exact List.mem_cons_self j js'
      · constructor
        · intro hx
          cases hx
        · intro hx
          rw [← hacid] at hx
          exact absurd hx hjs
  · intro a ha hacid hd p hp j hj
    have hafilter : a ∈ db.assignments.filter (fun x => x.computer_id == cid) :=
      List.mem_filter.mpr ⟨ha, by simp [hacid]⟩
    rw [← hacid] at hj
    have hjs : nonTerminalJobsFor db a.computer_id a.package_id ≠ [] := by
      intro hx
      rw [hx] at hj
      exact absurd hj (List.not_mem_nil j)
    refine ⟨⟨some j.id, a.desired_state, planPackage a p⟩, ?_, rfl, rfl, rfl⟩
    refine List.mem_flatMap.mpr ⟨a, hafilter, ?_⟩
    rw [planRowsFor_some db a p hp, if_pos hd, if_neg hjs]
    exact List.mem_map.mpr ⟨j, hj, rfl⟩

/-- Witness for C2 (amended): in the concrete store with one install
assignment and no jobs, the plan carries an entry for package 1 whose job id
is none because no non-terminal job exists; and when a Pending job 1 exists
for the pair, the plan carries an entry with job id 1. -/
theorem c2_plan_characterization_witness :
    (∃ e ∈ get_plan_for_computer dbC2 1,
       e.package.id = 1 ∧ e.action = "install" ∧
       (e.job_id = none ↔ nonTerminalJobsFor dbC2 1 1 = [])) ∧
    (∃ e ∈ get_plan_for_computer dbC2j 1,
       e.package.id = 1 ∧ e.action = "install" ∧ e.job_id = some 1) := by
  constructor
  · exact (c2_plan_characterization dbC2 1).2.2.1 ⟨1, 1, 1, "install", "t", "t"⟩
      (by decide) rfl (Or.inl rfl)
      ⟨1, "p", "1.0", "windows", "", "", "setup", "remove", "", "", "", []⟩
      (by decide)
  · exact (c2_plan_characterization dbC2j 1).2.2.2 ⟨1, 1, 1, "install", "t", "t"⟩
      (by decide) rfl (Or.inl rfl)
      ⟨1, "p", "1.0", "windows", "", "", "setup", "remove", "", "", "", []⟩
      (by decide)
      ⟨1, 1, 1, "install", "Pending", none, none, none, none, none, 0⟩
      (by decide)

end ClientManager
